import Mathlib

/-!
Verification of `rubicon_ml/viz/dataframe_plot.py` (class `DataframePlot`).

The development shallowly embeds the widget's data model and its two
operations, `load_experiment_data` and the registered callback
`update_dataframe_plot`, and proves the specified properties about them.

Modelling conventions:
* a pandas dataframe is a list of column labels plus a list of rows of cells;
  the integer index is not modelled, so `reset_index(drop=True)` is the
  identity;
* `experiment.dataframe(name=...)` is a function field returning
  `Except String LoggedDataframe`; a bare `except:` in the source corresponds
  to matching on the `.error` branch, whatever the message;
* exceptions raised by `load_experiment_data` are reified in `LoadError`;
* `warnings.warn` is an append-only stream of messages, returned alongside
  the new widget state.
-/

namespace RubiconViz

/-- A cell of a pandas dataframe. -/
inductive Cell
  | str (s : String)
  | num (n : Int)
  | nan
deriving DecidableEq

/-- A pandas dataframe: column labels and rows of cells.
Duplicate column labels are not modelled (operations act on the first
occurrence of a label). -/
structure Dataframe where
  cols : List String
  rows : List (List Cell)
deriving DecidableEq

/-- A dataframe is rectangular: every row has one cell per column. -/
def Dataframe.wf (df : Dataframe) : Bool :=
  df.rows.all fun r => r.length == df.cols.length

/-- pandas `df.empty`: true when either axis has length zero. -/
def Dataframe.isEmptyDf (df : Dataframe) : Bool :=
  df.rows.isEmpty || df.cols.isEmpty

/-- Position of a column label in a label list (first occurrence). -/
def colIndex (cols : List String) (c : String) : Option Nat :=
  match cols with
  | [] => none
  | c0 :: rest => if c0 = c then some 0 else (colIndex rest c).map Nat.succ

/-- pandas `df[c] = v` with a scalar `v`: overwrite the column if present,
otherwise append it on the right, broadcasting `v` to every row. -/
def Dataframe.setColumn (df : Dataframe) (c : String) (v : Cell) : Dataframe :=
  match colIndex df.cols c with
  | some i => { cols := df.cols, rows := df.rows.map fun r => r.set i v }
  | none => { cols := df.cols ++ [c], rows := df.rows.map fun r => r ++ [v] }

/-- pandas `pd.concat([a, b])`: append the rows; on a schema mismatch the
columns are outer-joined (first dataframe's labels, then the new labels of
the second) and missing cells are filled with NaN. -/
def Dataframe.concatDf (a b : Dataframe) : Dataframe :=
  if a.cols = b.cols then
    { cols := a.cols, rows := a.rows ++ b.rows }
  else
    let cols := a.cols ++ b.cols.filter (fun c => !(a.cols.contains c))
    let align := fun (src : Dataframe) (r : List Cell) =>
      cols.map fun c =>
        match colIndex src.cols c with
        | some i => r.getD i Cell.nan
        | none => Cell.nan
    { cols := cols, rows := a.rows.map (align a) ++ b.rows.map (align b) }

/-- pandas `df.reset_index(drop=True)`: the model keeps no integer index, so
renumbering it is the identity. -/
def Dataframe.reset_index (df : Dataframe) : Dataframe := df

/-- pandas `df[df[c].isin(ids)]`: keep the rows whose cell in column `c` is
one of `ids`; `none` models the KeyError raised when the column is absent. -/
def Dataframe.filterIsin (df : Dataframe) (c : String) (ids : List String) :
    Option Dataframe :=
  match colIndex df.cols c with
  | none => none
  | some i => some
      { cols := df.cols
        rows := df.rows.filter fun r =>
          match r.getD i Cell.nan with
          | Cell.str s => ids.contains s
          | _ => false }

/-- The values of one column of a dataframe, read off row by row. -/
def Dataframe.colValues (df : Dataframe) (c : String) : Option (List Cell) :=
  (colIndex df.cols c).map fun i => df.rows.map fun r => r.getD i Cell.nan

/-- A logged dataframe artifact as returned by `experiment.dataframe(...)`. -/
structure LoggedDataframe where
  data : Dataframe

/-- `dataframe.get_data()`. -/
def LoggedDataframe.get_data (d : LoggedDataframe) : Dataframe := d.data

/-- An experiment record: an identifier and the capability to fetch a named
dataframe, which may fail with an arbitrary error message
(`experiment.dataframe(name=...)` behind a bare `except:`). -/
structure Experiment where
  id : String
  dataframe : String → Except String LoggedDataframe

/-- Whether fetching the named dataframe from the experiment succeeds. -/
def fetchSucceeds (nm : String) (e : Experiment) : Bool :=
  match e.dataframe nm with
  | .ok _ => true
  | .error _ => false

/-- The rows of the dataframe the experiment yields for `nm` ([] on failure). -/
def okRows (nm : String) (e : Experiment) : List (List Cell) :=
  match e.dataframe nm with
  | .ok d => d.get_data.rows
  | .error _ => []

/-- Row count contributed by one experiment (0 when the fetch fails). -/
def fetchedRowCount (nm : String) (e : Experiment) : Nat :=
  (okRows nm e).length

/-- Modelled from the spec: `get_rubicon_colorscale` lives in
`rubicon_ml.viz.common.colors`, which is not among the given sources; the
spec says only that the default color sequence is "sized to the experiment
count", so the model returns a sequence of `n` distinct color tokens. -/
def get_rubicon_colorscale (n : Nat) : List String :=
  (List.range n).map fun i => "rubicon-color-" ++ toString i

/-- Modelled from the spec: the fixed background color token
`plot_background_blue` from `rubicon_ml.viz.common.colors` (not among the
given sources). -/
def plot_background_blue : String := "plot-background-blue"

/-- A value in the `plotting_func_kwargs` mapping. -/
inductive KwargValue
  | str (s : String)
  | colors (cs : List String)
  | num (n : Int)
deriving DecidableEq

/-- The `plotting_func_kwargs` dict, as an insertion-ordered association
list (Python dicts preserve insertion order; new keys go to the end). -/
abbrev Kwargs := List (String × KwargValue)

/-- Python `k in kwargs`. -/
def kwContains (kw : Kwargs) (k : String) : Bool :=
  kw.any fun p => p.1 = k

/-- Python `kwargs[k]`, as an option. -/
def kwLookup (kw : Kwargs) (k : String) : Option KwargValue :=
  (kw.find? fun p => p.1 = k).map Prod.snd

/-- One trace of a plotly figure; only the legend name is relevant here. -/
structure Trace where
  name : String
deriving DecidableEq

/-- A plotly figure: its traces and the layout fields the widget touches. -/
structure Figure where
  data : List Trace
  margin_t : Option Nat
  plot_bgcolor : Option String
deriving DecidableEq

/-- The widget state of `DataframePlot`; `data_df` is `none` until
`load_experiment_data` has stored a combined dataframe. -/
structure DataframePlot where
  dataframe_name : String
  experiments : List Experiment
  plotting_func : Dataframe → Option String → Option String → Kwargs → Figure
  plotting_func_kwargs : Kwargs
  x : Option String
  y : Option String
  data_df : Option Dataframe

/-- The exceptions `load_experiment_data` can raise. -/
inductive LoadError
  /-- `Exception(f"No dataframe with name {name} found!")`. -/
  | raisedNoDataframe (msg : String)
  /-- The ValueError pandas raises for `if self.data_df == None:` when
  `data_df` is a dataframe: its truth value is ambiguous. -/
  | truthValueAmbiguous
  /-- IndexError from `data_df.columns[1]` on a one-column dataframe. -/
  | indexError
deriving DecidableEq

/-- The parts of the widget state the loading loop mutates. -/
structure LoadCore where
  data_df : Option Dataframe
  x : Option String
  y : Option String
deriving DecidableEq

/-- The warning emitted for an experiment whose fetch raised. -/
def warnMsg (e : Experiment) : String :=
  "Experiment " ++ e.id ++ " does not have any dataframes logged to it."

/-- One iteration of the loop in `load_experiment_data`: fetch, warn-and-skip
on failure, tag with `experiment_id`, infer missing x/y from the tagged
columns, concatenate onto the accumulated dataframe, reset the index.
Returns the new core state, the warnings emitted, and the exception raised
by this iteration, if any. -/
def loadStep (nm : String) (c : LoadCore) (e : Experiment) :
    LoadCore × List String × Option LoadError :=
  match e.dataframe nm with
  | .error _ => (c, [warnMsg e], none)
  | .ok artifact =>
    let data_df := artifact.get_data.setColumn "experiment_id" (Cell.str e.id)
    match (if c.x.isSome then c.x else data_df.cols[0]?) with
    | none => (c, [], some .indexError)
    | some xv =>
      let c1 : LoadCore := { c with x := some xv }
      match (if c1.y.isSome then c1.y else data_df.cols[1]?) with
      | none => (c1, [], some .indexError)
      | some yv =>
        let c2 : LoadCore := { c1 with y := some yv }
        let combined :=
          match c2.data_df with
          | none => data_df
          | some acc => acc.concatDf data_df
        ({ c2 with data_df := some combined.reset_index }, [], none)

/-- The `for experiment in self.experiments:` loop; an exception raised by an
iteration aborts the remaining iterations but keeps the mutations made so
far. -/
def loadLoop (nm : String) : List Experiment → LoadCore →
    LoadCore × List String × Option LoadError
  | [], c => (c, [], none)
  | e :: es, c =>
    match loadStep nm c e with
    | (c1, ws, some err) => (c1, ws, some err)
    | (c1, ws, none) =>
      let r := loadLoop nm es c1
      (r.1, ws ++ r.2.1, r.2.2)

/-- The message of the terminal exception of `load_experiment_data`. -/
def noDataframeMsg (nm : String) : String :=
  "No dataframe with name " ++ nm ++ " found!"

/-- The trailing `try/except` of `load_experiment_data`:
with `data_df = None`, `self.data_df.empty` raises AttributeError, the bare
`except:` catches it, `None == None` holds and the explicit Exception is
raised; with an empty dataframe, the explicit Exception raised inside `try`
is swallowed by the same `except:` and `if self.data_df == None:` then
raises pandas' ambiguous-truth-value ValueError; with a non-empty dataframe
nothing is raised. -/
def finalCheck (nm : String) : Option Dataframe → Option LoadError
  | none => some (.raisedNoDataframe (noDataframeMsg nm))
  | some df => if df.isEmptyDf then some .truthValueAmbiguous else none

/-- `self.plotting_func_kwargs` mutation at the end of the loading step:
default `color` and `color_discrete_sequence` entries are inserted when
absent. -/
def injectKwargs (kw : Kwargs) (nExperiments : Nat) : Kwargs :=
  let kw1 :=
    if kwContains kw "color" then kw
    else kw ++ [("color", KwargValue.str "experiment_id")]
  if kwContains kw1 "color_discrete_sequence" then kw1
  else kw1 ++
    [("color_discrete_sequence",
      KwargValue.colors (get_rubicon_colorscale nExperiments))]

/-- The outcome of `load_experiment_data`: the mutated widget, the warnings
emitted, and the exception raised, if any. -/
structure LoadResult where
  widget : DataframePlot
  warnings : List String
  error : Option LoadError

/-- `DataframePlot.load_experiment_data`. Mutations made before an exception
persist on the widget; the kwargs defaults are only injected when the loop
completed, since an exception inside the loop propagates before reaching
them. -/
def DataframePlot.load_experiment_data (w : DataframePlot) : LoadResult :=
  let c0 : LoadCore := { data_df := none, x := w.x, y := w.y }
  match loadLoop w.dataframe_name w.experiments c0 with
  | (c, ws, some err) =>
    ⟨{ w with data_df := c.data_df, x := c.x, y := c.y }, ws, some err⟩
  | (c, ws, none) =>
    let kw := injectKwargs w.plotting_func_kwargs w.experiments.length
    ⟨{ w with
        data_df := c.data_df
        x := c.x
        y := c.y
        plotting_func_kwargs := kw },
      ws, finalCheck w.dataframe_name c.data_df⟩

/-- A single-quote character, for building the header literal. -/
def sq : String := String.singleton (Char.ofNat 39)

/-- The header text `f"showing dataframe {name} over {k} experiment..."`,
with the name wrapped in single quotes and a plural `s` unless `k = 1`. -/
def headerText (nm : String) (k : Nat) : String :=
  "showing dataframe " ++ sq ++ nm ++ sq ++ " over " ++ toString k ++
    " experiment" ++ (if k ≠ 1 then "s" else "")

/-- The active experiment-identifier set of the callback: the external
selection (with a falsy value read as the empty list) when linked to the
experiment table, the full experiment list's identifiers otherwise. -/
def selectedIds (w : DataframePlot) (link_experiment_table : Bool)
    (selected : Option (List String)) : List String :=
  if link_experiment_table then
    match selected with
    | some ids => ids
    | none => []
  else
    w.experiments.map Experiment.id

/-- The figure post-processing of the callback: fixed top margin, fixed
background color, every trace name truncated to its first 7 characters. -/
def postProcessFig (fig : Figure) : Figure :=
  { data := fig.data.map fun t => { t with name := t.name.take 7 }
    margin_t := some 30
    plot_bgcolor := some plot_background_blue }

/-- The callback `update_dataframe_plot` registered by `register_callbacks`:
filter the combined dataframe to the active identifiers, call the plotting
routine, post-process the figure, and recompute the header text. `none`
models the exceptions Python would raise when `data_df` was never set or
lacks the `experiment_id` column. -/
def update_dataframe_plot (w : DataframePlot) (link_experiment_table : Bool)
    (selected : Option (List String)) : Option (Figure × String) :=
  let selected_row_ids := selectedIds w link_experiment_table selected
  match w.data_df with
  | none => none
  | some df =>
    match df.filterIsin "experiment_id" selected_row_ids with
    | none => none
    | some filtered =>
      let df_figure :=
        w.plotting_func filtered w.x w.y w.plotting_func_kwargs
      some (postProcessFig df_figure,
        headerText w.dataframe_name selected_row_ids.length)

/-! Derived notions used to state the properties. -/

/-- The rows one experiment contributes to the combined dataframe: its
fetched rows, each tagged on the right with the experiment's identifier. -/
def taggedRows (nm : String) (e : Experiment) : List (List Cell) :=
  (okRows nm e).map fun r => r ++ [Cell.str e.id]

/-- The rows of an optional dataframe ([] for `none`). -/
def optRows : Option Dataframe → List (List Cell)
  | none => [] | some a => a.rows

/-- Column inference: keep an already-configured column, otherwise take the
column label at position `i`. -/
def inferCol (o : Option String) (cs : List String) (i : Nat) : Option String :=
  if o.isSome then o else cs[i]?

/-- Decidable form of "the experiment yields a dataframe with column labels
`cs`, and that dataframe is rectangular". -/
def fetchHasSchema (nm : String) (cs : List String) (e : Experiment) : Bool :=
  match e.dataframe nm with
  | .ok d => d.data.cols == cs && d.data.wf
  | .error _ => false

/-! Concrete fixtures used by the witnesses. -/

/-- A two-column dataframe with two rows. -/
def dfStep : Dataframe :=
  ⟨["step", "loss"], [[Cell.num 0, Cell.num 10], [Cell.num 1, Cell.num 8]]⟩

/-- A two-column dataframe with one row. -/
def dfStep2 : Dataframe :=
  ⟨["step", "loss"], [[Cell.num 0, Cell.num 7]]⟩

/-- An experiment whose fetch always succeeds with `df`. -/
def mkOk (i : String) (df : Dataframe) : Experiment :=
  ⟨i, fun _ => .ok ⟨df⟩⟩

/-- An experiment whose fetch always raises. -/
def mkBad (i : String) : Experiment :=
  ⟨i, fun _ => .error "no dataframes logged"⟩

/-- A concrete plotting routine producing one trace per row, with a name
longer than 7 characters. -/
def pfuncFix : Dataframe → Option String → Option String → Kwargs → Figure :=
  fun d _ _ _ => ⟨d.rows.map fun _ => ⟨"a-very-long-trace-name"⟩, none, none⟩

/-- Widget whose only experiment fails its fetch. -/
def wAllFail : DataframePlot :=
  ⟨"metrics", [mkBad "exp-1"], pfuncFix, [], none, none, none⟩

/-- Widget with two successfully fetching experiments of identical schema. -/
def wTwoOk : DataframePlot :=
  ⟨"metrics", [mkOk "exp-a" dfStep, mkOk "exp-b" dfStep2], pfuncFix, [],
    none, none, none⟩

/-- Widget with one failing and one succeeding experiment. -/
def wMixed : DataframePlot :=
  ⟨"metrics", [mkBad "exp-gone", mkOk "exp-a" dfStep], pfuncFix, [],
    none, none, none⟩

/-- Widget with a single failing experiment (the N = 1 instance). -/
def wSingleBad : DataframePlot :=
  ⟨"metrics", [mkBad "exp-only"], pfuncFix, [], none, none, none⟩

/-- A combined dataframe as `load_experiment_data` would store it. -/
def dfCombined : Dataframe :=
  ⟨["step", "loss", "experiment_id"],
    [[Cell.num 0, Cell.num 10, Cell.str "exp-a"],
     [Cell.num 1, Cell.num 8, Cell.str "exp-a"],
     [Cell.num 0, Cell.num 7, Cell.str "exp-b"]]⟩

/-- A widget in the post-load state, for exercising the callback. -/
def wLoadedFix : DataframePlot :=
  ⟨"metrics", [mkOk "exp-a" dfStep, mkOk "exp-b" dfStep2], pfuncFix,
    [("color", KwargValue.str "experiment_id")],
    some "step", some "loss", some dfCombined⟩

/-! Basic lemmas about the dataframe model. -/

theorem colIndex_eq_none_of_not_mem {c : String} {l : List String}
    (h : c ∉ l) : colIndex l c = none := by
  induction l with
  | nil => rfl
  | cons a t ih =>
    simp only [List.mem_cons, not_or] at h
    simp only [colIndex, if_neg (fun hh : a = c => h.1 hh.symm),
      ih h.2, Option.map_none']

theorem colIndex_append_self {c : String} {l : List String}
    (h : c ∉ l) : colIndex (l ++ [c]) c = some l.length := by
  induction l with
  | nil => simp [colIndex]
  | cons a t ih =>
    simp only [List.mem_cons, not_or] at h
    have hih := ih h.2
    simp [colIndex, if_neg (fun hh : a = c => h.1 hh.symm), hih]

theorem getD_append_len (r : List Cell) (v : Cell) :
    (r ++ [v]).getD r.length Cell.nan = v := by
  simp [List.getD]

theorem setColumn_of_not_mem {df : Dataframe} {c : String} {v : Cell}
    (h : c ∉ df.cols) :
    df.setColumn c v =
      ⟨df.cols ++ [c], df.rows.map fun r => r ++ [v]⟩ := by
  unfold Dataframe.setColumn
  rw [colIndex_eq_none_of_not_mem h]

theorem setColumn_cols_cases (df : Dataframe) (c : String) (v : Cell) :
    (df.setColumn c v).cols = df.cols ∨
      (df.setColumn c v).cols = df.cols ++ [c] := by
  unfold Dataframe.setColumn
  cases colIndex df.cols c <;> simp

theorem setColumn_cols_first_two {df : Dataframe} {c : String} {v : Cell}
    (h : 2 ≤ df.cols.length) :
    (df.setColumn c v).cols[0]? = df.cols[0]? ∧
      (df.setColumn c v).cols[1]? = df.cols[1]? := by
  rcases setColumn_cols_cases df c v with h1 | h1 <;> rw [h1]
  · exact ⟨rfl, rfl⟩
  · rw [List.getElem?_append, List.getElem?_append]
    constructor
    · rw [if_pos (by omega)]
    · rw [if_pos (by omega)]

theorem inferCol_of_isSome {o : Option String} {cs : List String} {i : Nat}
    (h : o.isSome) : inferCol o cs i = o := by
  unfold inferCol
  rw [if_pos h]

theorem inferCol_isSome {o : Option String} {cs : List String} {i : Nat}
    (h : i < cs.length) : (inferCol o cs i).isSome := by
  unfold inferCol
  cases o with
  | some a => simp
  | none => simp [List.getElem?_eq_getElem h]

theorem inferCol_inferCol {o : Option String} {cs : List String} {i : Nat}
    (h : i < cs.length) :
    inferCol (inferCol o cs i) cs i = inferCol o cs i :=
  inferCol_of_isSome (inferCol_isSome h)

/-! Lemmas about one iteration of the loading loop. -/

theorem loadStep_fail {nm : String} {e : Experiment}
    (h : fetchSucceeds nm e = false) (c : LoadCore) :
    loadStep nm c e = (c, [warnMsg e], none) := by
  unfold fetchSucceeds at h
  unfold loadStep
  cases he : e.dataframe nm with
  | error m => rfl
  | ok d => rw [he] at h; simp at h

theorem loadStep_ok {nm : String} {cs : List String} {c : LoadCore}
    {e : Experiment} {d : LoggedDataframe}
    (he : e.dataframe nm = .ok d) (hcols : d.data.cols = cs)
    (h2 : 2 ≤ cs.length) (hni : "experiment_id" ∉ cs)
    (hacc : ∀ a, c.data_df = some a → a.cols = cs ++ ["experiment_id"]) :
    loadStep nm c e =
      (⟨some ⟨cs ++ ["experiment_id"], optRows c.data_df ++ taggedRows nm e⟩,
        inferCol c.x cs 0, inferCol c.y cs 1⟩, [], none) := by
  have hset : d.get_data.setColumn "experiment_id" (Cell.str e.id) =
      ⟨cs ++ ["experiment_id"], d.data.rows.map fun r => r ++ [Cell.str e.id]⟩ := by
    have hni2 : "experiment_id" ∉ d.data.cols := by rw [hcols]; exact hni
    rw [LoggedDataframe.get_data, setColumn_of_not_mem hni2, hcols]
  have hrows : taggedRows nm e = d.data.rows.map fun r => r ++ [Cell.str e.id] := by
    simp [taggedRows, okRows, he, LoggedDataframe.get_data]
  match cs, h2 with
  | a :: b :: cs2, _ =>
    unfold loadStep
    rw [he]
    simp only [hset]
    cases hx : c.x with
    | some xa =>
      cases hy : c.y with
      | some ya =>
        simp only [hx, hy, Option.isSome_some, if_pos]
        cases hdf : c.data_df with
        | none =>
          simp [Dataframe.concatDf, Dataframe.reset_index, optRows, hrows,
            inferCol, hx, hy, hdf]
        | some acc =>
          have hc : acc.cols = (a :: b :: cs2) ++ ["experiment_id"] := hacc acc hdf
          simp [Dataframe.concatDf, Dataframe.reset_index, optRows, hrows,
            inferCol, hx, hy, hdf, hc]
      | none =>
        simp only [hx, hy, Option.isSome_some, Option.isSome_none, if_pos,
          if_neg, Bool.false_eq_true, not_false_iff]
        cases hdf : c.data_df with
        | none =>
          simp [Dataframe.concatDf, Dataframe.reset_index, optRows, hrows,
            inferCol, hx, hy, hdf]
        | some acc =>
          have hc : acc.cols = (a :: b :: cs2) ++ ["experiment_id"] := hacc acc hdf
          simp [Dataframe.concatDf, Dataframe.reset_index, optRows, hrows,
            inferCol, hx, hy, hdf, hc]
    | none =>
      cases hy : c.y with
      | some ya =>
        simp only [hx, hy, Option.isSome_some, Option.isSome_none, if_pos,
          if_neg, Bool.false_eq_true, not_false_iff]
        cases hdf : c.data_df with
        | none =>
          simp [Dataframe.concatDf, Dataframe.reset_index, optRows, hrows,
            inferCol, hx, hy, hdf]
        | some acc =>
          have hc : acc.cols = (a :: b :: cs2) ++ ["experiment_id"] := hacc acc hdf
          simp [Dataframe.concatDf, Dataframe.reset_index, optRows, hrows,
            inferCol, hx, hy, hdf, hc]
      | none =>
        simp only [hx, hy, Option.isSome_none, Bool.false_eq_true, if_neg,
          not_false_iff]
        cases hdf : c.data_df with
        | none =>
          simp [Dataframe.concatDf, Dataframe.reset_index, optRows, hrows,
            inferCol, hx, hy, hdf]
        | some acc =>
          have hc : acc.cols = (a :: b :: cs2) ++ ["experiment_id"] := hacc acc hdf
          simp [Dataframe.concatDf, Dataframe.reset_index, optRows, hrows,
            inferCol, hx, hy, hdf, hc]

/-! Lemmas about the whole loading loop. -/

theorem loadStep_err_cases (nm : String) (c : LoadCore) (e : Experiment) :
    (loadStep nm c e).2.2 = none ∨
      (loadStep nm c e).2.2 = some LoadError.indexError := by
  unfold loadStep
  cases e.dataframe nm with
  | error m => exact Or.inl rfl
  | ok d =>
    simp only
    split
    · exact Or.inr rfl
    · split
      · exact Or.inr rfl
      · exact Or.inl rfl

theorem loadLoop_cons (nm : String) (e : Experiment) (es : List Experiment)
    (c : LoadCore) :
    loadLoop nm (e :: es) c =
      match loadStep nm c e with
      | (c1, ws, some err) => (c1, ws, some err)
      | (c1, ws, none) =>
        ((loadLoop nm es c1).1, ws ++ (loadLoop nm es c1).2.1,
          (loadLoop nm es c1).2.2) := rfl

theorem loadLoop_err_cases (nm : String) :
    ∀ (es : List Experiment) (c : LoadCore),
      (loadLoop nm es c).2.2 = none ∨
        (loadLoop nm es c).2.2 = some LoadError.indexError := by
  intro es
  induction es with
  | nil => intro c; exact Or.inl rfl
  | cons e es ih =>
    intro c
    unfold loadLoop
    rcases hstep : loadStep nm c e with ⟨c1, ws, err⟩
    rcases loadStep_err_cases nm c e with hn | hi
    · rw [hstep] at hn
      simp only at hn
      subst hn
      simpa using ih c1
    · rw [hstep] at hi
      simp only at hi
      subst hi
      simp

theorem loadLoop_fail_all {nm : String} :
    ∀ {es : List Experiment} (c : LoadCore),
      (∀ e ∈ es, fetchSucceeds nm e = false) →
      loadLoop nm es c = (c, es.map warnMsg, none) := by
  intro es
  induction es with
  | nil => intro c _; rfl
  | cons e es ih =>
    intro c h
    have he := h e (List.mem_cons_self e es)
    have hrest : ∀ x ∈ es, fetchSucceeds nm x = false :=
      fun x hx => h x (List.mem_cons_of_mem e hx)
    unfold loadLoop
    rw [loadStep_fail he c]
    simp [ih c hrest]

theorem loadLoop_append_of_ok {nm : String} {l1 : List Experiment} :
    ∀ {c : LoadCore}, (loadLoop nm l1 c).2.2 = none →
    ∀ (l2 : List Experiment),
      loadLoop nm (l1 ++ l2) c =
        ((loadLoop nm l2 (loadLoop nm l1 c).1).1,
          (loadLoop nm l1 c).2.1 ++ (loadLoop nm l2 (loadLoop nm l1 c).1).2.1,
          (loadLoop nm l2 (loadLoop nm l1 c).1).2.2) := by
  induction l1 with
  | nil => intro c _ l2; simp [loadLoop]
  | cons e l1 ih =>
    intro c hok l2
    rcases hstep : loadStep nm c e with ⟨c1, ws, err⟩
    rw [loadLoop_cons, hstep] at hok
    cases err with
    | some er => simp at hok
    | none =>
      simp only at hok
      rw [List.cons_append, loadLoop_cons, hstep, loadLoop_cons, hstep]
      simp only
      rw [ih hok l2]
      simp [List.append_assoc]

theorem loadLoop_xy_stable {nm : String} :
    ∀ {es : List Experiment} {c : LoadCore},
      c.x.isSome → c.y.isSome →
      (loadLoop nm es c).1.x = c.x ∧ (loadLoop nm es c).1.y = c.y ∧
        (loadLoop nm es c).2.2 = none := by
  intro es
  induction es with
  | nil => intro c _ _; exact ⟨rfl, rfl, rfl⟩
  | cons e es ih =>
    intro c hx hy
    obtain ⟨xa, hcx⟩ := Option.isSome_iff_exists.mp hx
    obtain ⟨ya, hcy⟩ := Option.isSome_iff_exists.mp hy
    have hstep : loadStep nm c e =
        ((loadStep nm c e).1, (loadStep nm c e).2.1, none) ∧
        (loadStep nm c e).1.x = c.x ∧ (loadStep nm c e).1.y = c.y := by
      unfold loadStep
      cases e.dataframe nm with
      | error m => simp
      | ok d => simp [hcx, hcy]
    rcases hs : loadStep nm c e with ⟨c1, ws, err⟩
    rw [hs] at hstep
    obtain ⟨h1, h2, h3⟩ := hstep
    simp only at h1 h2 h3
    have herr : err = none := by
      have := congrArg (fun p => p.2.2) h1
      simpa using this
    subst herr
    have hc1x : c1.x.isSome := by rw [h2, hcx]; simp
    have hc1y : c1.y.isSome := by rw [h3, hcy]; simp
    obtain ⟨i1, i2, i3⟩ := ih (c := c1) hc1x hc1y
    rw [loadLoop_cons, hs]
    simp only
    rw [i1, i2, i3, h2, h3]
    exact ⟨rfl, rfl, rfl⟩

theorem loadLoop_schema_run {nm : String} {cs : List String}
    (h2 : 2 ≤ cs.length) (hni : "experiment_id" ∉ cs) :
    ∀ (es : List Experiment) (c : LoadCore),
      (∀ e ∈ es, fetchHasSchema nm cs e = true) →
      (∀ a, c.data_df = some a → a.cols = cs ++ ["experiment_id"]) →
      loadLoop nm es c =
        (⟨(if es.isEmpty then c.data_df else
             some ⟨cs ++ ["experiment_id"],
               optRows c.data_df ++ (es.map (taggedRows nm)).flatten⟩),
          (if es.isEmpty then c.x else inferCol c.x cs 0),
          (if es.isEmpty then c.y else inferCol c.y cs 1)⟩, [], none) := by
  intro es
  induction es with
  | nil => intro c _ _; simp [loadLoop]
  | cons e es ih =>
    intro c hs hacc
    have he := hs e (List.mem_cons_self e es)
    unfold fetchHasSchema at he
    rcases hfetch : e.dataframe nm with m | d
    · rw [hfetch] at he; simp at he
    rw [hfetch] at he
    simp only [Bool.and_eq_true, beq_iff_eq] at he
    have hstep := loadStep_ok hfetch he.1 h2 hni hacc
    unfold loadLoop
    rw [hstep]
    simp only
    set c1 : LoadCore :=
      ⟨some ⟨cs ++ ["experiment_id"], optRows c.data_df ++ taggedRows nm e⟩,
        inferCol c.x cs 0, inferCol c.y cs 1⟩ with hc1
    have hrest : ∀ x ∈ es, fetchHasSchema nm cs x = true :=
      fun x hx => hs x (List.mem_cons_of_mem e hx)
    have hacc1 : ∀ a, c1.data_df = some a → a.cols = cs ++ ["experiment_id"] := by
      intro a ha
      rw [hc1] at ha
      simp only at ha
      rw [← Option.some_inj.mp ha]
    rw [ih c1 hrest hacc1]
    cases es with
    | nil =>
      simp [hc1, optRows]
    | cons e2 es2 =>
      simp only [List.isEmpty_cons, if_neg, Bool.false_eq_true, not_false_iff]
      refine congrArg (fun z => (z, ([] : List String), (none : Option LoadError))) ?_
      have hx0 : inferCol (inferCol c.x cs 0) cs 0 = inferCol c.x cs 0 :=
        inferCol_inferCol (by omega)
      have hy1 : inferCol (inferCol c.y cs 1) cs 1 = inferCol c.y cs 1 :=
        inferCol_inferCol (by omega)
      simp [hc1, optRows, hx0, hy1, List.append_assoc]

/-! Lemmas about the kwargs association list. -/

theorem kwLookup_eq_none_of_not_contains {kw : Kwargs} {k : String}
    (h : kwContains kw k = false) : kwLookup kw k = none := by
  induction kw with
  | nil => rfl
  | cons p t ih =>
    simp only [kwContains, List.any_cons, Bool.or_eq_false_iff] at h
    simp only [kwContains] at ih
    simp only [kwLookup, List.find?_cons, h.1, Option.map_none']
    exact ih h.2

theorem kwLookup_append_left {kw kw2 : Kwargs} {k : String} {v : KwargValue}
    (h : kwLookup kw k = some v) : kwLookup (kw ++ kw2) k = some v := by
  unfold kwLookup at h ⊢
  rw [List.find?_append]
  cases hf : kw.find? (fun p => p.1 = k) with
  | none => rw [hf] at h; simp at h
  | some pr => rw [hf] at h; simp [hf, Option.or, h]

theorem kwLookup_append_self {kw : Kwargs} {k : String} (v : KwargValue)
    (h : kwContains kw k = false) :
    kwLookup (kw ++ [(k, v)]) k = some v := by
  have hn : kwLookup kw k = none := kwLookup_eq_none_of_not_contains h
  unfold kwLookup at hn ⊢
  rw [List.find?_append]
  cases hf : kw.find? (fun p => p.1 = k) with
  | none => simp [List.find?, Option.or]
  | some pr => rw [hf] at hn; simp at hn

theorem kwContains_append (kw kw2 : Kwargs) (k : String) :
    kwContains (kw ++ kw2) k = (kwContains kw k || kwContains kw2 k) :=
  List.any_append

/-!
### C1

If zero experiments yield a dataframe with the configured name, the load
step aborts with the explicit "No dataframe with name ... found!" error.
-/

/-- C1: when no experiment's fetch of the configured dataframe name
succeeds, `load_experiment_data` raises the explicit no-dataframe-found
exception instead of leaving the widget with an unset combined table. -/
theorem C1_load_raises_when_no_fetch_succeeds (w : DataframePlot)
    (h : ∀ e ∈ w.experiments, fetchSucceeds w.dataframe_name e = false) :
    (w.load_experiment_data).error =
      some (LoadError.raisedNoDataframe (noDataframeMsg w.dataframe_name)) := by
  simp only [DataframePlot.load_experiment_data]
  rw [loadLoop_fail_all _ h]
  simp [finalCheck]

/-- Witness for C1: a concrete widget whose single experiment fails. -/
theorem C1_witness :
    (wAllFail.load_experiment_data).error =
      some (LoadError.raisedNoDataframe (noDataframeMsg "metrics")) :=
  C1_load_raises_when_no_fetch_succeeds wAllFail (by decide)

/-! Extraction helpers for the combined dataframe. -/

theorem map_eq_replicate_of_mem {α β : Type} {l : List α} {f : α → β} {b : β}
    (h : ∀ a ∈ l, f a = b) : l.map f = List.replicate l.length b := by
  induction l with
  | nil => rfl
  | cons a t ih =>
    simp only [List.map_cons, List.length_cons, List.replicate_succ]
    rw [h a (List.mem_cons_self a t), ih fun x hx => h x (List.mem_cons_of_mem a hx)]

theorem taggedRows_length (nm : String) (e : Experiment) :
    (taggedRows nm e).length = fetchedRowCount nm e := by
  simp [taggedRows, fetchedRowCount]

theorem taggedRows_getD {nm : String} {cs : List String} {e : Experiment}
    (hsch : fetchHasSchema nm cs e = true) :
    (taggedRows nm e).map (fun r => r.getD cs.length Cell.nan) =
      List.replicate (fetchedRowCount nm e) (Cell.str e.id) := by
  unfold fetchHasSchema at hsch
  rcases hfetch : e.dataframe nm with m | d
  · rw [hfetch] at hsch; simp at hsch
  rw [hfetch] at hsch
  simp only [Bool.and_eq_true, beq_iff_eq] at hsch
  obtain ⟨hcols, hwf⟩ := hsch
  have hlen : ∀ r ∈ d.data.rows, r.length = cs.length := by
    intro r hr
    unfold Dataframe.wf at hwf
    rw [List.all_eq_true] at hwf
    have := hwf r hr
    rw [beq_iff_eq] at this
    rw [this, hcols]
  have hcount : fetchedRowCount nm e = d.data.rows.length := by
    simp [fetchedRowCount, okRows, hfetch, LoggedDataframe.get_data]
  have htr : taggedRows nm e = d.data.rows.map fun r => r ++ [Cell.str e.id] := by
    simp [taggedRows, okRows, hfetch, LoggedDataframe.get_data]
  rw [htr, hcount, List.map_map]
  have : ∀ r ∈ d.data.rows,
      ((fun r => r.getD cs.length Cell.nan) ∘ fun r => r ++ [Cell.str e.id]) r =
        Cell.str e.id := by
    intro r hr
    simp only [Function.comp]
    rw [← hlen r hr]
    exact getD_append_len r (Cell.str e.id)
  rw [map_eq_replicate_of_mem this]

/-!
### C2

For experiments that all yield a dataframe of the configured name with a
shared (plottable) schema, the combined table's rows are the per-experiment
rows in order, and the added `experiment_id` column identifies the
contributing experiment of every row.
-/

/-- C2: with every experiment yielding a rectangular dataframe with the same
column labels `cs` (a plottable schema: at least two columns, none already
called `experiment_id`), after `load_experiment_data` the combined
dataframe's row count is the sum of the per-experiment row counts and its
`experiment_id` column lists, in contribution order, each experiment's
identifier once per contributed row. -/
theorem C2_combined_rowcount_and_provenance (w : DataframePlot)
    (cs : List String) (hne : w.experiments ≠ [])
    (hs : ∀ e ∈ w.experiments, fetchHasSchema w.dataframe_name cs e = true)
    (h2 : 2 ≤ cs.length) (hni : "experiment_id" ∉ cs) :
    ∃ df, (w.load_experiment_data).widget.data_df = some df ∧
      df.rows.length =
        (w.experiments.map (fetchedRowCount w.dataframe_name)).sum ∧
      df.colValues "experiment_id" =
        some ((w.experiments.map fun e =>
          List.replicate (fetchedRowCount w.dataframe_name e)
            (Cell.str e.id)).flatten) := by
  have hne2 : w.experiments.isEmpty = false := by
    cases hexp : w.experiments with
    | nil => exact absurd hexp hne
    | cons a t => rfl
  simp only [DataframePlot.load_experiment_data]
  rw [loadLoop_schema_run h2 hni w.experiments ⟨none, w.x, w.y⟩ hs
    (by intro a ha; simp at ha)]
  simp only [hne2, Bool.false_eq_true, if_neg, not_false_iff, optRows,
    List.nil_append]
  refine ⟨_, rfl, ?_, ?_⟩
  · rw [List.length_flatten, List.map_map]
    congr 1
    simp [Function.comp, taggedRows, fetchedRowCount]
  · unfold Dataframe.colValues
    rw [colIndex_append_self hni]
    simp only [Option.map_some', Option.some_inj]
    rw [List.map_flatten, List.map_map]
    congr 1
    exact List.map_congr_left fun e he => taggedRows_getD (hs e he)

/-- Witness for C2: two concrete experiments with the same two-column
schema, contributing two rows and one row. -/
theorem C2_witness :
    ∃ df, (wTwoOk.load_experiment_data).widget.data_df = some df ∧
      df.rows.length =
        (wTwoOk.experiments.map (fetchedRowCount wTwoOk.dataframe_name)).sum ∧
      df.colValues "experiment_id" =
        some ((wTwoOk.experiments.map fun e =>
          List.replicate (fetchedRowCount wTwoOk.dataframe_name e)
            (Cell.str e.id)).flatten) :=
  C2_combined_rowcount_and_provenance wTwoOk ["step", "loss"]
    (by simp [wTwoOk]) (by decide) (by decide) (by decide)

theorem flatten_tagged_length (nm : String) (l : List Experiment) :
    ((l.map (taggedRows nm)).flatten).length =
      (l.map (fetchedRowCount nm)).sum := by
  rw [List.length_flatten, List.map_map]
  congr 1
  simp [Function.comp, taggedRows, fetchedRowCount]

theorem loadLoop_schema_data {nm : String} {cs : List String}
    (h2 : 2 ≤ cs.length) (hni : "experiment_id" ∉ cs)
    (es : List Experiment) (c : LoadCore)
    (hs : ∀ e ∈ es, fetchHasSchema nm cs e = true)
    (hacc : ∀ a, c.data_df = some a → a.cols = cs ++ ["experiment_id"]) :
    optRows (loadLoop nm es c).1.data_df =
        optRows c.data_df ++ (es.map (taggedRows nm)).flatten ∧
    ((loadLoop nm es c).1.data_df = none ↔ (c.data_df = none ∧ es = [])) ∧
    (∀ a, (loadLoop nm es c).1.data_df = some a →
        a.cols = cs ++ ["experiment_id"]) ∧
    (loadLoop nm es c).2.1 = [] ∧ (loadLoop nm es c).2.2 = none := by
  rw [loadLoop_schema_run h2 hni es c hs hacc]
  cases es with
  | nil =>
    refine ⟨?_, ?_, ?_, rfl, rfl⟩
    · simp [optRows]
    · simp
    · intro a ha
      simp only [List.isEmpty_nil, if_true] at ha
      exact hacc a ha
  | cons e t =>
    refine ⟨?_, ?_, ?_, rfl, rfl⟩
    · simp [optRows]
    · simp
    · intro a ha
      simp only [List.isEmpty_cons, Bool.false_eq_true, if_false] at ha
      rw [← Option.some_inj.mp ha]

theorem loadLoop_one_fail {nm : String} {cs : List String}
    (h2 : 2 ≤ cs.length) (hni : "experiment_id" ∉ cs)
    (pre post : List Experiment) (bad : Experiment)
    (hbad : fetchSucceeds nm bad = false)
    (hs : ∀ e ∈ pre ++ post, fetchHasSchema nm cs e = true)
    (c0 : LoadCore) (hc0 : c0.data_df = none) :
    (loadLoop nm (pre ++ bad :: post) c0).2.2 = none ∧
    (loadLoop nm (pre ++ bad :: post) c0).2.1 = [warnMsg bad] ∧
    optRows (loadLoop nm (pre ++ bad :: post) c0).1.data_df =
      ((pre ++ post).map (taggedRows nm)).flatten ∧
    ((loadLoop nm (pre ++ bad :: post) c0).1.data_df = none ↔
      (pre = [] ∧ post = [])) ∧
    (∀ a, (loadLoop nm (pre ++ bad :: post) c0).1.data_df = some a →
      a.cols = cs ++ ["experiment_id"]) := by
  have hspre : ∀ e ∈ pre, fetchHasSchema nm cs e = true :=
    fun e he => hs e (List.mem_append_left post he)
  have hspost : ∀ e ∈ post, fetchHasSchema nm cs e = true :=
    fun e he => hs e (List.mem_append_right pre he)
  have hacc0 : ∀ a, c0.data_df = some a → a.cols = cs ++ ["experiment_id"] := by
    intro a ha; rw [hc0] at ha; simp at ha
  obtain ⟨p1, p2, p3, p4, p5⟩ := loadLoop_schema_data h2 hni pre c0 hspre hacc0
  rw [loadLoop_append_of_ok p5 (bad :: post)]
  rw [loadLoop_cons, loadStep_fail hbad]
  obtain ⟨q1, q2, q3, q4, q5⟩ :=
    loadLoop_schema_data h2 hni post (loadLoop nm pre c0).1 hspost p3
  simp only
  rw [p4, q4, q5]
  refine ⟨rfl, rfl, ?_, ?_, q3⟩
  · rw [q1, p1, hc0]
    simp [List.map_append, List.flatten_append, List.append_assoc, optRows]
  · rw [q2, p2, hc0]
    simp

/-!
### C3

Claim: if exactly one of N experiments fails to yield the named dataframe
and the other N − 1 succeed, `load_experiment_data` completes without
raising, the combined table holds exactly the successful experiments' rows,
and a warning identifying the failing experiment is emitted.

The claim as stated is false: at N = 1 (the lone experiment failing, the
other zero vacuously succeeding) the load step raises the
no-dataframe-found error, because no experiment contributed any rows.
-/

/-- C3 counterexample: `wSingleBad` has exactly one experiment, that one
experiment fails its fetch (so exactly one of N fails and the other N − 1
succeed), yet `load_experiment_data` raises instead of completing. -/
theorem C3_counterexample :
    wSingleBad.experiments.length = 1 ∧
    (∀ e ∈ wSingleBad.experiments,
      fetchSucceeds wSingleBad.dataframe_name e = false) ∧
    (wSingleBad.load_experiment_data).error ≠ none := by
  decide

/-- C3 amended: if exactly one experiment fails its fetch and the others
succeed with a shared plottable schema and contribute at least one row in
total (in particular N ≥ 2), then `load_experiment_data` completes without
raising, the combined dataframe holds exactly the successful experiments'
tagged rows in order, and the warning naming the failing experiment is
emitted. -/
theorem C3_amended_partial_data (w : DataframePlot) (cs : List String)
    (pre post : List Experiment) (bad : Experiment)
    (hsplit : w.experiments = pre ++ bad :: post)
    (hbad : fetchSucceeds w.dataframe_name bad = false)
    (hs : ∀ e ∈ pre ++ post, fetchHasSchema w.dataframe_name cs e = true)
    (h2 : 2 ≤ cs.length) (hni : "experiment_id" ∉ cs)
    (hrow : 1 ≤ ((pre ++ post).map (fetchedRowCount w.dataframe_name)).sum) :
    (w.load_experiment_data).error = none ∧
    (w.load_experiment_data).widget.data_df =
      some ⟨cs ++ ["experiment_id"],
        ((pre ++ post).map (taggedRows w.dataframe_name)).flatten⟩ ∧
    (w.load_experiment_data).warnings = [warnMsg bad] := by
  obtain ⟨f1, f2, f3, f4, f5⟩ :=
    loadLoop_one_fail h2 hni pre post bad hbad hs
      (⟨none, w.x, w.y⟩ : LoadCore) rfl
  have hnotnil : ¬(pre = [] ∧ post = []) := by
    rintro ⟨hp, hq⟩
    rw [hp, hq] at hrow
    simp at hrow
  have hdata : (loadLoop w.dataframe_name (pre ++ bad :: post)
      (⟨none, w.x, w.y⟩ : LoadCore)).1.data_df =
      some ⟨cs ++ ["experiment_id"],
        ((pre ++ post).map (taggedRows w.dataframe_name)).flatten⟩ := by
    cases hd : (loadLoop w.dataframe_name (pre ++ bad :: post)
        (⟨none, w.x, w.y⟩ : LoadCore)).1.data_df with
    | none => exact absurd (f4.mp hd) hnotnil
    | some a =>
      have hcols := f5 a hd
      have hrows : a.rows =
          ((pre ++ post).map (taggedRows w.dataframe_name)).flatten := by
        rw [hd] at f3
        simpa [optRows] using f3
      cases a
      simp only at hcols hrows
      rw [hcols, hrows]
  have hlen : (((pre ++ post).map (taggedRows w.dataframe_name)).flatten).length =
      ((pre ++ post).map (fetchedRowCount w.dataframe_name)).sum :=
    flatten_tagged_length _ _
  have hempty : (⟨cs ++ ["experiment_id"],
      ((pre ++ post).map (taggedRows w.dataframe_name)).flatten⟩ :
        Dataframe).isEmptyDf = false := by
    simp only [Dataframe.isEmptyDf, Bool.or_eq_false_iff]
    constructor
    · cases hflat : ((pre ++ post).map (taggedRows w.dataframe_name)).flatten with
      | nil =>
        exfalso
        rw [hflat, List.length_nil] at hlen
        omega
      | cons a t => rfl
    · simp
  simp only [DataframePlot.load_experiment_data]
  rw [hsplit]
  rcases hloop : loadLoop w.dataframe_name (pre ++ bad :: post)
      (⟨none, w.x, w.y⟩ : LoadCore) with ⟨core, ws, err⟩
  rw [hloop] at f1 f2 hdata
  simp only at f1 f2 hdata
  subst f1
  subst f2
  simp only
  refine ⟨?_, hdata, by trivial⟩
  rw [hdata]
  simp only [finalCheck]
  rw [hempty]
  simp

/-- Witness for C3 amended: one failing experiment followed by one
succeeding experiment with two rows. -/
theorem C3_amended_witness :
    (wMixed.load_experiment_data).error = none ∧
    (wMixed.load_experiment_data).widget.data_df =
      some ⟨["step", "loss"] ++ ["experiment_id"],
        (([] ++ [mkOk "exp-a" dfStep]).map (taggedRows wMixed.dataframe_name)).flatten⟩ ∧
    (wMixed.load_experiment_data).warnings = [warnMsg (mkBad "exp-gone")] :=
  C3_amended_partial_data wMixed ["step", "loss"] [] [mkOk "exp-a" dfStep]
    (mkBad "exp-gone") rfl (by decide) (by decide) (by decide) (by decide)
    (by decide)

theorem loadStep_first_success {nm : String} {c : LoadCore} {e : Experiment}
    {d : LoggedDataframe}
    (he : e.dataframe nm = .ok d) (h2 : 2 ≤ d.data.cols.length)
    (hcx : c.x = none) (hcy : c.y = none) :
    (loadStep nm c e).2.2 = none ∧
    (loadStep nm c e).1.x = d.data.cols[0]? ∧
    (loadStep nm c e).1.y = d.data.cols[1]? := by
  obtain ⟨hc0, hc1⟩ :=
    @setColumn_cols_first_two d.get_data "experiment_id" (Cell.str e.id) h2
  have hs0 : d.data.cols[0]? = some d.data.cols[0] :=
    List.getElem?_eq_getElem (by omega)
  have hs1 : d.data.cols[1]? = some d.data.cols[1] :=
    List.getElem?_eq_getElem (by omega)
  unfold loadStep
  rw [he]
  simp only [hcx, hcy, Option.isSome_none, Bool.false_eq_true, if_false, hc0,
    hc1]
  have hgd : d.get_data = d.data := rfl
  rw [hgd] at hc0 hc1 ⊢
  rw [hs0, hs1]
  simp

/-!
### C4

With neither x nor y configured at construction, the load step infers them
from the first two column labels of the first successfully fetched
dataframe, and later experiments never change them.
-/

/-- C4: with `x` and `y` unset, after `load_experiment_data` they equal the
first and second column labels of the first successfully fetched
experiment's dataframe (which has at least two columns); the experiments
loaded afterwards (`post`, arbitrary) do not affect them. -/
theorem C4_xy_from_first_success (w : DataframePlot)
    (pre post : List Experiment) (e : Experiment) (d : LoggedDataframe)
    (hx : w.x = none) (hy : w.y = none)
    (hsplit : w.experiments = pre ++ e :: post)
    (hpre : ∀ p ∈ pre, fetchSucceeds w.dataframe_name p = false)
    (he : e.dataframe w.dataframe_name = .ok d)
    (h2 : 2 ≤ d.data.cols.length) :
    (w.load_experiment_data).widget.x = d.data.cols[0]? ∧
    (w.load_experiment_data).widget.y = d.data.cols[1]? := by
  have hstep := loadStep_first_success (c := (⟨none, w.x, w.y⟩ : LoadCore))
    he h2 hx hy
  rcases hs1 : loadStep w.dataframe_name (⟨none, w.x, w.y⟩ : LoadCore) e
    with ⟨c1, ws1, err1⟩
  rw [hs1] at hstep
  simp only at hstep
  obtain ⟨herr1, hx1, hy1⟩ := hstep
  subst herr1
  have hc1x : c1.x.isSome := by
    rw [hx1, List.getElem?_eq_getElem (show 0 < d.data.cols.length by omega)]
    simp
  have hc1y : c1.y.isSome := by
    rw [hy1, List.getElem?_eq_getElem (show 1 < d.data.cols.length by omega)]
    simp
  obtain ⟨st1, st2, st3⟩ :=
    @loadLoop_xy_stable w.dataframe_name post c1 hc1x hc1y
  simp only [DataframePlot.load_experiment_data]
  rw [hsplit]
  rw [loadLoop_append_of_ok (by rw [loadLoop_fail_all _ hpre]) (e :: post)]
  rw [loadLoop_fail_all _ hpre]
  simp only
  rw [loadLoop_cons, hs1]
  simp only
  rw [st3]
  simp only
  rw [st1, st2, hx1, hy1]
  exact ⟨rfl, rfl⟩

/-- Witness for C4: a failing experiment followed by a succeeding one whose
dataframe has columns "step" and "loss". -/
theorem C4_witness :
    (wMixed.load_experiment_data).widget.x = dfStep.cols[0]? ∧
    (wMixed.load_experiment_data).widget.y = dfStep.cols[1]? :=
  C4_xy_from_first_success wMixed [mkBad "exp-gone"] [] (mkOk "exp-a" dfStep)
    ⟨dfStep⟩ rfl rfl rfl (by decide) rfl (by decide)

theorem load_eq_of_loop (w : DataframePlot) (core : LoadCore)
    (ws : List String) (err : Option LoadError)
    (h : loadLoop w.dataframe_name w.experiments
      (⟨none, w.x, w.y⟩ : LoadCore) = (core, ws, err)) :
    (w.load_experiment_data).widget.data_df = core.data_df ∧
    (w.load_experiment_data).widget.x = core.x ∧
    (w.load_experiment_data).widget.y = core.y ∧
    (w.load_experiment_data).warnings = ws ∧
    (w.load_experiment_data).error =
      (match err with
        | some er => some er
        | none => finalCheck w.dataframe_name core.data_df) := by
  simp only [DataframePlot.load_experiment_data]
  simp only [h]
  cases err <;> simp

/-!
### C10

Any fetch failure inside the loading loop, whatever the raised error, is
converted to a warning naming the experiment and the experiment is skipped:
the rest of the load behaves as if the failing experiment were absent, and
no fetch failure escapes the loop.
-/

/-- C10: when the loop reaches a failing experiment `bad` (whatever error its
fetch raised), a warning naming `bad` is emitted, and the resulting combined
dataframe, x/y inference and raised error are exactly those of the same
widget with `bad` removed from the experiment list: the failure is recovered
locally and never propagates. -/
theorem C10_fetch_failure_warned_and_skipped (w : DataframePlot)
    (pre post : List Experiment) (bad : Experiment)
    (hsplit : w.experiments = pre ++ bad :: post)
    (hbad : fetchSucceeds w.dataframe_name bad = false)
    (hpre : (loadLoop w.dataframe_name pre
      (⟨none, w.x, w.y⟩ : LoadCore)).2.2 = none) :
    warnMsg bad ∈ (w.load_experiment_data).warnings ∧
    (w.load_experiment_data).widget.data_df =
      (DataframePlot.load_experiment_data
        { w with experiments := pre ++ post }).widget.data_df ∧
    (w.load_experiment_data).widget.x =
      (DataframePlot.load_experiment_data
        { w with experiments := pre ++ post }).widget.x ∧
    (w.load_experiment_data).widget.y =
      (DataframePlot.load_experiment_data
        { w with experiments := pre ++ post }).widget.y ∧
    (w.load_experiment_data).error =
      (DataframePlot.load_experiment_data
        { w with experiments := pre ++ post }).error := by
  rcases hP : loadLoop w.dataframe_name post
      (loadLoop w.dataframe_name pre (⟨none, w.x, w.y⟩ : LoadCore)).1
    with ⟨cp, wsp, errp⟩
  have hA : loadLoop w.dataframe_name (pre ++ bad :: post)
      (⟨none, w.x, w.y⟩ : LoadCore) =
      (cp, (loadLoop w.dataframe_name pre
        (⟨none, w.x, w.y⟩ : LoadCore)).2.1 ++ ([warnMsg bad] ++ wsp),
        errp) := by
    rw [loadLoop_append_of_ok hpre (bad :: post), loadLoop_cons,
      loadStep_fail hbad]
    simp only
    rw [hP]
  have hB : loadLoop w.dataframe_name (pre ++ post)
      (⟨none, w.x, w.y⟩ : LoadCore) =
      (cp, (loadLoop w.dataframe_name pre
        (⟨none, w.x, w.y⟩ : LoadCore)).2.1 ++ wsp, errp) := by
    rw [loadLoop_append_of_ok hpre post, hP]
  have hwA : loadLoop w.dataframe_name w.experiments
      (⟨none, w.x, w.y⟩ : LoadCore) =
      (cp, (loadLoop w.dataframe_name pre
        (⟨none, w.x, w.y⟩ : LoadCore)).2.1 ++ ([warnMsg bad] ++ wsp),
        errp) := by
    rw [hsplit]; exact hA
  obtain ⟨a1, a2, a3, a4, a5⟩ := load_eq_of_loop w cp _ errp hwA
  obtain ⟨b1, b2, b3, b4, b5⟩ :=
    load_eq_of_loop { w with experiments := pre ++ post } cp _ errp hB
  refine ⟨?_, ?_, ?_, ?_, ?_⟩
  · rw [a4]; simp
  · rw [a1, b1]
  · rw [a2, b2]
  · rw [a3, b3]
  · rw [a5, b5]
    cases errp <;> rfl

/-- Witness for C10: the failing experiment of `wMixed` is warned about and
its removal leaves the load outcome unchanged. -/
theorem C10_witness :
    warnMsg (mkBad "exp-gone") ∈ (wMixed.load_experiment_data).warnings ∧
    (wMixed.load_experiment_data).widget.data_df =
      (DataframePlot.load_experiment_data
        { wMixed with experiments := [] ++ [mkOk "exp-a" dfStep] }).widget.data_df ∧
    (wMixed.load_experiment_data).widget.x =
      (DataframePlot.load_experiment_data
        { wMixed with experiments := [] ++ [mkOk "exp-a" dfStep] }).widget.x ∧
    (wMixed.load_experiment_data).widget.y =
      (DataframePlot.load_experiment_data
        { wMixed with experiments := [] ++ [mkOk "exp-a" dfStep] }).widget.y ∧
    (wMixed.load_experiment_data).error =
      (DataframePlot.load_experiment_data
        { wMixed with experiments := [] ++ [mkOk "exp-a" dfStep] }).error :=
  C10_fetch_failure_warned_and_skipped wMixed [] [mkOk "exp-a" dfStep]
    (mkBad "exp-gone") rfl (by decide) rfl

/-! Helpers for the rendering callback. -/

theorem update_eq (w : DataframePlot) (link : Bool)
    (sel : Option (List String)) {df T : Dataframe}
    (hdf : w.data_df = some df)
    (hT : df.filterIsin "experiment_id" (selectedIds w link sel) = some T) :
    update_dataframe_plot w link sel =
      some (postProcessFig (w.plotting_func T w.x w.y w.plotting_func_kwargs),
        headerText w.dataframe_name (selectedIds w link sel).length) := by
  simp only [update_dataframe_plot, hdf, hT]

theorem update_inv {w : DataframePlot} {link : Bool}
    {sel : Option (List String)} {fig : Figure} {hdr : String}
    (h : update_dataframe_plot w link sel = some (fig, hdr)) :
    ∃ df T, w.data_df = some df ∧
      df.filterIsin "experiment_id" (selectedIds w link sel) = some T ∧
      fig = postProcessFig (w.plotting_func T w.x w.y w.plotting_func_kwargs) ∧
      hdr = headerText w.dataframe_name (selectedIds w link sel).length := by
  unfold update_dataframe_plot at h
  cases hdf : w.data_df with
  | none => rw [hdf] at h; simp at h
  | some df =>
    rw [hdf] at h
    simp only at h
    cases hT : df.filterIsin "experiment_id" (selectedIds w link sel) with
    | none => rw [hT] at h; simp at h
    | some T =>
      rw [hT] at h
      simp only [Option.some_inj, Prod.mk.injEq] at h
      exact ⟨df, T, rfl, hT, h.1.symm, h.2.symm⟩

theorem headerText_one (nm : String) :
    headerText nm 1 =
      ("showing dataframe " ++ sq ++ nm ++ sq ++ " over ") ++ "1 experiment" := by
  unfold headerText
  have h1 : toString (1 : Nat) = "1" := rfl
  have h2 : (if (1 : Nat) ≠ 1 then "s" else "") = "" := by simp
  rw [h1, h2, String.append_empty, String.append_assoc]
  rw [show ("1" : String) ++ " experiment" = "1 experiment" from rfl]

theorem headerText_of_ne_one (nm : String) {k : Nat} (hk : k ≠ 1) :
    headerText nm k =
      ("showing dataframe " ++ sq ++ nm ++ sq ++ " over ") ++
        (toString k ++ " experiments") := by
  unfold headerText
  rw [if_pos hk]
  rw [String.append_assoc
    ("showing dataframe " ++ sq ++ nm ++ sq ++ " over " ++ toString k)
    " experiment" "s"]
  rw [String.append_assoc
    ("showing dataframe " ++ sq ++ nm ++ sq ++ " over ")
    (toString k) (" experiment" ++ "s")]
  rw [show (" experiment" : String) ++ "s" = " experiments" from rfl]

/-!
### C5

Every series legend label of the rendered figure is truncated to at most 7
characters. -/

/-- C5: every trace name in the figure returned by the callback has length
at most 7, whatever the plotting routine produced. -/
theorem C5_legend_labels_at_most_7 (w : DataframePlot) (link : Bool)
    (sel : Option (List String)) (fig : Figure) (hdr : String)
    (h : update_dataframe_plot w link sel = some (fig, hdr)) :
    ∀ t ∈ fig.data, t.name.length ≤ 7 := by
  obtain ⟨df, T, hdf, hT, hfig, hhdr⟩ := update_inv h
  subst hfig
  intro t ht
  simp only [postProcessFig] at ht
  obtain ⟨t0, _, rfl⟩ := List.mem_map.mp ht
  simp only
  rw [String.take_eq]
  show (t0.name.data.take 7).length ≤ 7
  simp [List.length_take]

/-- Witness for C5: a concrete render of `wLoadedFix` whose plotting routine
emits 22-character names; each truncated name has 7 characters. -/
theorem C5_witness : (Trace.mk "a-very-").name.length ≤ 7 :=
  C5_legend_labels_at_most_7 wLoadedFix false none
    ⟨[⟨"a-very-"⟩, ⟨"a-very-"⟩, ⟨"a-very-"⟩], some 30,
      some plot_background_blue⟩
    (headerText "metrics" 2) (by decide) ⟨"a-very-"⟩ (by decide)

/-!
### C6

The header text reports the active experiment count with singular wording
exactly when the count is 1. -/

/-- C6: the header returned by the callback ends in "1 experiment" when the
active identifier set has size 1, and in "k experiments" for every other
size k (including 0). -/
theorem C6_header_singular_plural (w : DataframePlot) (link : Bool)
    (sel : Option (List String)) (fig : Figure) (hdr : String)
    (h : update_dataframe_plot w link sel = some (fig, hdr)) :
    ((selectedIds w link sel).length = 1 →
      ∃ p, hdr = p ++ "1 experiment") ∧
    ((selectedIds w link sel).length ≠ 1 →
      ∃ p, hdr = p ++ (toString (selectedIds w link sel).length ++
        " experiments")) := by
  obtain ⟨df, T, hdf, hT, hfig, hhdr⟩ := update_inv h
  subst hhdr
  constructor
  · intro h1
    rw [h1, headerText_one]
    exact ⟨_, rfl⟩
  · intro h1
    rw [headerText_of_ne_one w.dataframe_name h1]
    exact ⟨_, rfl⟩

/-- Witness for C6: with exactly one selected identifier the header ends in
"1 experiment". -/
theorem C6_witness : ∃ p, headerText "metrics" 1 = p ++ "1 experiment" :=
  (C6_header_singular_plural wLoadedFix true (some ["exp-a"])
    ⟨[⟨"a-very-"⟩, ⟨"a-very-"⟩], some 30, some plot_background_blue⟩
    (headerText "metrics" 1) (by decide)).1 (by decide)

/-!
### C7

The callback's active identifier set is the external selection when linked
(absent selection read as empty) and the full experiment set otherwise, and
the plotting routine receives exactly the combined rows whose
`experiment_id` lies in that set. -/

/-- C7: characterization of the active identifier set for the three
selection cases, and of the table handed to the plotting routine: its
columns are the combined table's and its rows are exactly the combined rows
whose `experiment_id` cell is one of the active identifiers. -/
theorem C7_active_set_and_filtered_rows (w : DataframePlot) (link : Bool)
    (sel : Option (List String)) (df : Dataframe) (i : Nat)
    (hdf : w.data_df = some df)
    (hi : colIndex df.cols "experiment_id" = some i) :
    (link = true → sel = none → selectedIds w link sel = []) ∧
    (∀ ids, link = true → sel = some ids → selectedIds w link sel = ids) ∧
    (link = false → selectedIds w link sel = w.experiments.map Experiment.id) ∧
    ∃ T, update_dataframe_plot w link sel =
        some (postProcessFig
            (w.plotting_func T w.x w.y w.plotting_func_kwargs),
          headerText w.dataframe_name (selectedIds w link sel).length) ∧
      T.cols = df.cols ∧
      ∀ r, r ∈ T.rows ↔ (r ∈ df.rows ∧
        ∃ s, r.getD i Cell.nan = Cell.str s ∧
          s ∈ selectedIds w link sel) := by
  refine ⟨?_, ?_, ?_, ?_⟩
  · intro hl hsel; simp [selectedIds, hl, hsel]
  · intro ids hl hsel; simp [selectedIds, hl, hsel]
  · intro hl; simp [selectedIds, hl]
  · have hT : df.filterIsin "experiment_id" (selectedIds w link sel) =
        some ⟨df.cols, df.rows.filter fun r =>
          match r.getD i Cell.nan with
          | Cell.str s => (selectedIds w link sel).contains s
          | _ => false⟩ := by
      unfold Dataframe.filterIsin
      rw [hi]
    refine ⟨_, update_eq w link sel hdf hT, rfl, ?_⟩
    intro r
    simp only [List.mem_filter]
    apply and_congr_right
    intro _
    cases hc : r.getD i Cell.nan with
    | str s => simp [hc]
    | num n => simp [hc]
    | nan => simp [hc]

/-- Witness for C7 at `wLoadedFix` without linkage: the active set is both
experiment identifiers and the filtered table keeps all three rows. -/
theorem C7_witness :
    (false = true → (none : Option (List String)) = none →
      selectedIds wLoadedFix false none = []) ∧
    (∀ ids, false = true → (none : Option (List String)) = some ids →
      selectedIds wLoadedFix false none = ids) ∧
    (false = false → selectedIds wLoadedFix false none =
      wLoadedFix.experiments.map Experiment.id) ∧
    ∃ T, update_dataframe_plot wLoadedFix false none =
        some (postProcessFig
            (wLoadedFix.plotting_func T wLoadedFix.x wLoadedFix.y
              wLoadedFix.plotting_func_kwargs),
          headerText wLoadedFix.dataframe_name
            (selectedIds wLoadedFix false none).length) ∧
      T.cols = dfCombined.cols ∧
      ∀ r, r ∈ T.rows ↔ (r ∈ dfCombined.rows ∧
        ∃ s, r.getD 2 Cell.nan = Cell.str s ∧
          s ∈ selectedIds wLoadedFix false none) :=
  C7_active_set_and_filtered_rows wLoadedFix false none dfCombined 2
    (by decide) (by decide)

/-!
### C9

The render computation is deterministic: the same widget state and the same
trigger/selection inputs always give the same figure and header. -/

/-- C9: two invocations of the callback on identical widget state and
identical selection inputs return an identical figure and identical header
text. -/
theorem C9_render_deterministic (w : DataframePlot) (link : Bool)
    (sel : Option (List String)) (f1 f2 : Figure) (h1 h2 : String)
    (e1 : update_dataframe_plot w link sel = some (f1, h1))
    (e2 : update_dataframe_plot w link sel = some (f2, h2)) :
    f1 = f2 ∧ h1 = h2 := by
  rw [e1] at e2
  simp only [Option.some_inj, Prod.mk.injEq] at e2
  exact e2

/-- Witness for C9: two renders of `wLoadedFix` with the same inputs. -/
theorem C9_witness :
    (⟨[⟨"a-very-"⟩, ⟨"a-very-"⟩, ⟨"a-very-"⟩], some 30,
      some plot_background_blue⟩ : Figure) =
      ⟨[⟨"a-very-"⟩, ⟨"a-very-"⟩, ⟨"a-very-"⟩], some 30,
        some plot_background_blue⟩ ∧
    headerText "metrics" 2 = headerText "metrics" 2 :=
  C9_render_deterministic wLoadedFix false none _ _ _ _
    (by decide) (by decide)

/-!
### C8

After the load step the kwargs mapping holds a default `color` entry
(grouping by `experiment_id`) and a default `color_discrete_sequence` entry
sized to the experiment count, unless these were configured explicitly;
configured entries are never changed. -/

theorem injectKwargs_spec (kw : Kwargs) (n : Nat) :
    (kwContains kw "color" = false →
      kwLookup (injectKwargs kw n) "color" =
        some (KwargValue.str "experiment_id")) ∧
    (kwContains kw "color_discrete_sequence" = false →
      kwLookup (injectKwargs kw n) "color_discrete_sequence" =
        some (KwargValue.colors (get_rubicon_colorscale n))) ∧
    (∀ k v, kwLookup kw k = some v →
      kwLookup (injectKwargs kw n) k = some v) := by
  have hone : ∀ (v : KwargValue) (k : String), k ≠ "color_discrete_sequence" →
      kwContains [(k, v)] "color_discrete_sequence" = false := by
    intro v k hk
    simp [kwContains, hk]
  refine ⟨?_, ?_, ?_⟩
  · intro hc
    unfold injectKwargs
    rw [hc]
    simp only [Bool.false_eq_true, if_false]
    have h1 : kwLookup (kw ++ [("color", KwargValue.str "experiment_id")])
        "color" = some (KwargValue.str "experiment_id") :=
      kwLookup_append_self _ hc
    cases hcds : kwContains (kw ++ [("color", KwargValue.str "experiment_id")])
        "color_discrete_sequence" with
    | false =>
      simp only [Bool.false_eq_true, if_false]
      exact kwLookup_append_left h1
    | true => simpa using h1
  · intro hcds
    unfold injectKwargs
    cases hcc : kwContains kw "color" with
    | true =>
      simp only [eq_self_iff_true, if_true, hcds, Bool.false_eq_true, if_false]
      exact kwLookup_append_self _ hcds
    | false =>
      simp only [Bool.false_eq_true, if_false]
      have hstill : kwContains
          (kw ++ [("color", KwargValue.str "experiment_id")])
          "color_discrete_sequence" = false := by
        rw [kwContains_append, hcds,
          hone (KwargValue.str "experiment_id") "color" (by decide)]
        rfl
      simp only [hstill, Bool.false_eq_true, if_false]
      exact kwLookup_append_self _ hstill
  · intro k v hv
    unfold injectKwargs
    cases hcc : kwContains kw "color" with
    | true =>
      simp only [eq_self_iff_true, if_true]
      cases hcds2 : kwContains kw "color_discrete_sequence" with
      | true => simpa using hv
      | false =>
        simp only [Bool.false_eq_true, if_false]
        exact kwLookup_append_left hv
    | false =>
      simp only [Bool.false_eq_true, if_false]
      have h1 := @kwLookup_append_left _
        [("color", KwargValue.str "experiment_id")] _ _ hv
      cases hcds2 : kwContains
          (kw ++ [("color", KwargValue.str "experiment_id")])
          "color_discrete_sequence" with
      | true => simpa using h1
      | false =>
        simp only [Bool.false_eq_true, if_false]
        exact kwLookup_append_left h1

/-- C8: unless the load loop aborted with the degenerate one-column
IndexError, after `load_experiment_data` the kwargs mapping has a `color`
entry equal to `experiment_id` when none was configured, a
`color_discrete_sequence` entry computed from the experiment count when none
was configured, and every explicitly configured entry unchanged. -/
theorem C8_kwargs_defaults (w : DataframePlot)
    (herr : (w.load_experiment_data).error ≠ some LoadError.indexError) :
    (kwContains w.plotting_func_kwargs "color" = false →
      kwLookup (w.load_experiment_data).widget.plotting_func_kwargs "color" =
        some (KwargValue.str "experiment_id")) ∧
    (kwContains w.plotting_func_kwargs "color_discrete_sequence" = false →
      kwLookup (w.load_experiment_data).widget.plotting_func_kwargs
          "color_discrete_sequence" =
        some (KwargValue.colors
          (get_rubicon_colorscale w.experiments.length))) ∧
    (∀ k v, kwLookup w.plotting_func_kwargs k = some v →
      kwLookup (w.load_experiment_data).widget.plotting_func_kwargs k =
        some v) := by
  rcases hloop : loadLoop w.dataframe_name w.experiments
      (⟨none, w.x, w.y⟩ : LoadCore) with ⟨core, ws, err⟩
  rcases loadLoop_err_cases w.dataframe_name w.experiments
      (⟨none, w.x, w.y⟩ : LoadCore) with hn | hi
  · rw [hloop] at hn
    simp only at hn
    subst hn
    have hkw : (w.load_experiment_data).widget.plotting_func_kwargs =
        injectKwargs w.plotting_func_kwargs w.experiments.length := by
      simp only [DataframePlot.load_experiment_data]
      simp only [hloop]
    rw [hkw]
    exact injectKwargs_spec w.plotting_func_kwargs w.experiments.length
  · rw [hloop] at hi
    simp only at hi
    subst hi
    exfalso
    apply herr
    simp only [DataframePlot.load_experiment_data]
    simp only [hloop]

/-- Witness for C8: a widget with empty kwargs and no experiments; the load
raises the no-dataframe error (not the IndexError), and both defaults are
injected. -/
theorem C8_witness :
    (kwContains wAllFail.plotting_func_kwargs "color" = false →
      kwLookup (wAllFail.load_experiment_data).widget.plotting_func_kwargs
          "color" = some (KwargValue.str "experiment_id")) ∧
    (kwContains wAllFail.plotting_func_kwargs "color_discrete_sequence" =
        false →
      kwLookup (wAllFail.load_experiment_data).widget.plotting_func_kwargs
          "color_discrete_sequence" =
        some (KwargValue.colors
          (get_rubicon_colorscale wAllFail.experiments.length))) ∧
    (∀ k v, kwLookup wAllFail.plotting_func_kwargs k = some v →
      kwLookup (wAllFail.load_experiment_data).widget.plotting_func_kwargs k =
        some v) :=
  C8_kwargs_defaults wAllFail (by decide)

end RubiconViz
